import Mathlib

set_option maxRecDepth 8000

/-!
Verification development for a small FastAPI CRUD backend (clients and
invoices over a MongoDB-style document store).

Shallow embedding of `src/main.py` and `src/schemas.py`. The persistence
accessor (`database.py`: `create_document`, `get_documents`, the `db`
handle) is imported by `main.py` but is not part of the source tree, so it
is modelled from the specification (spec sections 4.2 and 6); those
definitions carry a `Modelled from the spec:` doc comment.
-/

/-- A document describing one invoice item after `model_dump` (the dict
with keys description, quantity, unit_price that pydantic produces for an
embedded `InvoiceItem`). -/
structure ItemDoc where
  description : String
  quantity : Rat
  unit_price : Rat
deriving DecidableEq

/-- JSON-safe primitive values that occur in documents of this service:
null, strings, numbers, booleans, and arrays of item documents (the only
array-valued field the schemas produce is `Invoice.items`). -/
inductive Prim where
  | pnull
  | pstr (s : String)
  | pnum (q : Rat)
  | pbool (b : Bool)
  | pitems (l : List ItemDoc)
deriving DecidableEq

/-- A value as stored by the document database driver: a BSON ObjectId
(carried here by its 24-hex-character string form, which is what `str`
returns on it), a datetime (carried by its `isoformat()` string), or a
plain JSON value. -/
inductive MongoValue where
  | objectId (id : String)
  | datetime (iso : String)
  | jsonVal (v : Prim)
deriving DecidableEq

/-- A stored record: field name to driver-native value, in field order. -/
abbrev Document := List (String × MongoValue)

/-- A JSON-safe record as returned over the wire. -/
abbrev JDoc := List (String × Prim)

/-- Embeds the per-value branch of `_serialize_doc` (main.py lines 31-36):
`isinstance(v, ObjectId)` gives `str(v)`, `isinstance(v, datetime)` gives
`v.isoformat()`, anything else passes through. -/
def serializeVal : MongoValue → Prim
  | .objectId id => .pstr id
  | .datetime iso => .pstr iso
  | .jsonVal v => v

/-- Embeds `_serialize_doc` (main.py lines 25-37): the loop over
`doc.items()` that builds the output dict binding by binding. -/
def serialize_doc : Document → JDoc
  | [] => []
  | (k, v) :: rest => (k, serializeVal v) :: serialize_doc rest

/-! ## Schema layer (src/schemas.py) -/

/-- `Client.status` literal enum: active, inactive or prospect. -/
inductive ClientStatus where
  | active
  | inactive
  | prospect
deriving DecidableEq

def clientStatusStr : ClientStatus → String
  | .active => "active"
  | .inactive => "inactive"
  | .prospect => "prospect"

/-- Validated `Client` model (schemas.py lines 15-23). -/
structure Client where
  name : String
  email : Option String
  phone : Option String
  company : Option String
  address : Option String
  notes : Option String
  status : ClientStatus
deriving DecidableEq

/-- A raw JSON body for POST /clients before validation: each schema field
either absent or present with a string value (non-string values are also
rejected by pydantic but are not needed by any claim). -/
structure RawClient where
  name : Option String
  email : Option String
  phone : Option String
  company : Option String
  address : Option String
  notes : Option String
  status : Option String
deriving DecidableEq

/-- Models the external `EmailStr` format check of the pydantic library
(library code, not in the source tree): a single `@` with a non-empty
local part and a dotted non-empty domain. The exact format rules are not
load-bearing for any claim. -/
def isEmailLike (s : String) : Bool :=
  match s.split (fun c => c = '@') with
  | [l, d] => l ≠ "" && d ≠ "" && d.contains '.'
  | _ => false

def checkEmail : Option String → Except String (Option String)
  | none => .ok none
  | some e =>
      if isEmailLike e then .ok (some e)
      else .error "email: value is not a valid email address"

/-- Parses the `status` literal of a Client body; an absent field takes
the declared default "active" (schemas.py line 23). -/
def parseClientStatus : Option String → Except String ClientStatus
  | none => .ok .active
  | some "active" => .ok .active
  | some "inactive" => .ok .inactive
  | some "prospect" => .ok .prospect
  | some _ => .error "status: Input should be a valid enumeration member"

/-- Embeds pydantic validation of the `Client` schema (schemas.py lines
15-23): `name` required with length bounds 2-120, `email` optional with
format check, free-text fields pass through, `status` enum with default
"active". Pydantic reports all field errors together; only the fact of
failure matters here, so the first failing field's message is returned. -/
def validateClient (r : RawClient) : Except String Client :=
  match r.name with
  | none => .error "name: Field required"
  | some n =>
      if n.length < 2 then .error "name: String should have at least 2 characters"
      else if n.length > 120 then .error "name: String should have at most 120 characters"
      else
        match checkEmail r.email with
        | .error e => .error e
        | .ok em =>
            match parseClientStatus r.status with
            | .error e => .error e
            | .ok stat => .ok ⟨n, em, r.phone, r.company, r.address, r.notes, stat⟩

/-- `Invoice.currency` literal enum (schemas.py line 39). -/
inductive Currency where
  | USD | EUR | GBP | INR | JPY | AUD | CAD
deriving DecidableEq

def currencyStr : Currency → String
  | .USD => "USD"
  | .EUR => "EUR"
  | .GBP => "GBP"
  | .INR => "INR"
  | .JPY => "JPY"
  | .AUD => "AUD"
  | .CAD => "CAD"

/-- `Invoice.status` literal enum (schemas.py line 40). -/
inductive InvoiceStatus where
  | draft | sent | paid | overdue | cancelled
deriving DecidableEq

def invoiceStatusStr : InvoiceStatus → String
  | .draft => "draft"
  | .sent => "sent"
  | .paid => "paid"
  | .overdue => "overdue"
  | .cancelled => "cancelled"

/-- Validated `InvoiceItem` model (schemas.py lines 26-29). -/
structure InvoiceItem where
  description : String
  quantity : Rat
  unit_price : Rat
deriving DecidableEq

/-- Validated `Invoice` model (schemas.py lines 32-42). -/
structure Invoice where
  invoice_number : Option String
  client_id : Option String
  issue_date : Option String
  due_date : Option String
  items : List InvoiceItem
  currency : Currency
  status : InvoiceStatus
  notes : Option String
  terms : Option String
deriving DecidableEq

/-- Raw JSON body of one invoice item before validation. -/
structure RawInvoiceItem where
  description : Option String
  quantity : Option Rat
  unit_price : Option Rat
deriving DecidableEq

/-- Raw JSON body for POST /invoices before validation. -/
structure RawInvoice where
  invoice_number : Option String
  client_id : Option String
  issue_date : Option String
  due_date : Option String
  items : Option (List RawInvoiceItem)
  currency : Option String
  status : Option String
  notes : Option String
  terms : Option String
deriving DecidableEq

/-- Embeds pydantic validation of one `InvoiceItem` (schemas.py lines
26-29): description required with length 1-200, quantity defaults to 1
and must be nonnegative, unit_price required and nonnegative. -/
def validateItem (r : RawInvoiceItem) : Except String InvoiceItem :=
  match r.description with
  | none => .error "items.description: Field required"
  | some d =>
      if d.length < 1 then .error "items.description: String should have at least 1 character"
      else if d.length > 200 then .error "items.description: String should have at most 200 characters"
      else
        let q := r.quantity.getD 1
        if q < 0 then .error "items.quantity: Input should be greater than or equal to 0"
        else
          match r.unit_price with
          | none => .error "items.unit_price: Field required"
          | some up =>
              if up < 0 then .error "items.unit_price: Input should be greater than or equal to 0"
              else .ok ⟨d, q, up⟩

def validateItems : List RawInvoiceItem → Except String (List InvoiceItem)
  | [] => .ok []
  | r :: rest =>
      match validateItem r with
      | .error e => .error e
      | .ok i =>
          match validateItems rest with
          | .error e => .error e
          | .ok is => .ok (i :: is)

/-- Parses the `currency` literal; an absent field takes the declared
default USD (schemas.py line 39). -/
def parseCurrency : Option String → Except String Currency
  | none => .ok .USD
  | some "USD" => .ok .USD
  | some "EUR" => .ok .EUR
  | some "GBP" => .ok .GBP
  | some "INR" => .ok .INR
  | some "JPY" => .ok .JPY
  | some "AUD" => .ok .AUD
  | some "CAD" => .ok .CAD
  | some _ => .error "currency: Input should be a valid enumeration member"

/-- Parses the `status` literal of an Invoice body; an absent field takes
the declared default "draft" (schemas.py line 40). -/
def parseInvoiceStatus : Option String → Except String InvoiceStatus
  | none => .ok .draft
  | some "draft" => .ok .draft
  | some "sent" => .ok .sent
  | some "paid" => .ok .paid
  | some "overdue" => .ok .overdue
  | some "cancelled" => .ok .cancelled
  | some _ => .error "status: Input should be a valid enumeration member"

/-- Embeds pydantic validation of the `Invoice` schema (schemas.py lines
32-42): free-text fields are optional and unconstrained, `items` defaults
to the empty list and each item is validated, `currency` and `status` are
enums with defaults. -/
def validateInvoice (r : RawInvoice) : Except String Invoice :=
  match validateItems (r.items.getD []) with
  | .error e => .error e
  | .ok its =>
      match parseCurrency r.currency with
      | .error e => .error e
      | .ok cur =>
          match parseInvoiceStatus r.status with
          | .error e => .error e
          | .ok stat =>
              .ok ⟨r.invoice_number, r.client_id, r.issue_date, r.due_date,
                   its, cur, stat, r.notes, r.terms⟩

def optStr : Option String → Prim
  | none => .pnull
  | some s => .pstr s

/-- The dict pydantic produces for a validated Client (`model_dump`),
which is what the persistence accessor receives: every declared field
present, absent optionals as null, the status enum as its string. -/
def clientToDoc (c : Client) : Document :=
  [("name", .jsonVal (.pstr c.name)),
   ("email", .jsonVal (optStr c.email)),
   ("phone", .jsonVal (optStr c.phone)),
   ("company", .jsonVal (optStr c.company)),
   ("address", .jsonVal (optStr c.address)),
   ("notes", .jsonVal (optStr c.notes)),
   ("status", .jsonVal (.pstr (clientStatusStr c.status)))]

def itemToDoc (it : InvoiceItem) : ItemDoc :=
  ⟨it.description, it.quantity, it.unit_price⟩

/-- The dict pydantic produces for a validated Invoice (`model_dump`). -/
def invoiceToDoc (p : Invoice) : Document :=
  [("invoice_number", .jsonVal (optStr p.invoice_number)),
   ("client_id", .jsonVal (optStr p.client_id)),
   ("issue_date", .jsonVal (optStr p.issue_date)),
   ("due_date", .jsonVal (optStr p.due_date)),
   ("items", .jsonVal (.pitems (p.items.map itemToDoc))),
   ("currency", .jsonVal (.pstr (currencyStr p.currency))),
   ("status", .jsonVal (.pstr (invoiceStatusStr p.status))),
   ("notes", .jsonVal (optStr p.notes)),
   ("terms", .jsonVal (optStr p.terms))]

/-! ## Persistence layer (database.py, not in the source tree) -/

def hexChar (n : Nat) : Char :=
  if n < 10 then Char.ofNat (48 + n) else Char.ofNat (87 + n)

/-- Lower 4*k bits of n as k hex characters, most significant first
(leading zeros kept). -/
def genIdAux : Nat → Nat → List Char
  | 0, _ => []
  | k + 1, n => genIdAux k (n / 16) ++ [hexChar (n % 16)]

/-- Modelled from the spec: the storage engine assigns each inserted
record a unique generated identifier whose string form has 24 (hex)
characters, as a BSON ObjectId's does. Here the n-th identifier handed
out is n written as 24 hex digits. -/
def genId (n : Nat) : String :=
  String.mk (genIdAux 24 n)

/-- Modelled from the spec (section 6, persisted state layout): two
logical collections `client` and `invoice`, each a mapping of generated
identifier to record document, plus the generator state for fresh
identifiers. -/
structure DBState where
  client : List (String × Document)
  invoice : List (String × Document)
  counter : Nat
deriving DecidableEq

def emptyDB : DBState := ⟨[], [], 0⟩

/-- Collection lookup by name, as `db[name]` in main.py. Only the two
collection names produced by `_collection_name` occur. -/
def getColl (st : DBState) (name : String) : List (String × Document) :=
  if name = "client" then st.client
  else if name = "invoice" then st.invoice
  else []

def putColl (st : DBState) (name : String) (c : List (String × Document)) : DBState :=
  if name = "client" then { st with client := c }
  else if name = "invoice" then { st with invoice := c }
  else st

def lowerChar (c : Char) : Char :=
  if 'A' ≤ c && c ≤ 'Z' then Char.ofNat (c.toNat + 32) else c

/-- ASCII lowercasing of a string, written out so that it evaluates (the
class names and identifier strings it is applied to are ASCII). -/
def strLower (s : String) : String :=
  String.mk (s.data.map lowerChar)

/-- Embeds `_collection_name` (main.py lines 40-41): the model class name
lowercased. -/
def _collection_name (modelName : String) : String :=
  strLower modelName

/-- Modelled from the spec (section 4.2): `insert(collection_name, record)
-> identifier` persists one record and returns its newly assigned
identifier. Records are prepended; the spec guarantees no ordering. -/
def create_document (st : DBState) (name : String) (doc : Document) : String × DBState :=
  let id := genId st.counter
  (id, { putColl st name ((id, doc) :: getColl st name) with counter := st.counter + 1 })

/-- A stored record as the driver returns it: the `_id` ObjectId field
followed by the record's own fields. -/
def withId (kv : String × Document) : Document :=
  ("_id", MongoValue.objectId kv.1) :: kv.2

def lookupField (d : Document) (k : String) : Option MongoValue :=
  match d.find? (fun kv => kv.1 == k) with
  | some kv => some kv.2
  | none => none

/-- A record matches an exact-match filter when every filter field is
present with the required value. -/
def docMatches (filt : List (String × MongoValue)) (d : Document) : Bool :=
  filt.all (fun kv => lookupField d kv.1 == some kv.2)

/-- Modelled from the spec (section 4.2): `query(collection_name, filter,
limit)` returns the records matching an exact-match filter (empty filter
means all records), capped at limit, in the storage engine's natural
order. -/
def get_documents (st : DBState) (name : String) (filt : List (String × MongoValue)) (limit : Nat) : List Document :=
  ((((getColl st name).map withId).filter (docMatches filt)).take limit)

/-- Modelled from the spec: `find_one({"_id": oid})` on a collection, as
used by the route handlers after inserting (main.py lines 114, 147) and
for the referenced-client existence check (line 139). -/
def find_one_by_id (coll : List (String × Document)) (id : String) : Option Document :=
  match coll.find? (fun kv => kv.1 == id) with
  | some kv => some (withId kv)
  | none => none

def isHexChar (c : Char) : Bool :=
  c.isDigit || ('a' ≤ c && c ≤ 'f') || ('A' ≤ c && c ≤ 'F')

/-- Models the `bson.ObjectId` constructor on a string argument: it
accepts exactly a 24-character hexadecimal string (case-insensitive,
normalised to lower case) and raises `InvalidId` on anything else, which
in `create_invoice` propagates as an unhandled server error. `none` here
stands for that raised exception. -/
def objectIdOfString (s : String) : Option String :=
  if s.length == 24 && s.data.all isHexChar then some (strLower s)
  else none

/-! ## HTTP layer (src/main.py) -/

/-- How a request can fail: a 422 pydantic validation rejection, an
explicit `HTTPException`, or an unhandled exception surfacing as a server
error. -/
inductive ApiError where
  | validationErr (detail : String)
  | httpErr (code : Nat) (detail : String)
  | serverErr (msg : String)
deriving DecidableEq

/-- The routes registered on the app, method and path, in source order
(main.py decorators at lines 46, 51, 56, 91, 102, 108, 120, 135). -/
def appRoutes : List (String × String) :=
  [("GET", "/"), ("GET", "/api/health"), ("GET", "/test"), ("GET", "/schema"),
   ("GET", "/clients"), ("POST", "/clients"),
   ("GET", "/invoices"), ("POST", "/invoices")]

/-- Embeds `health` (main.py lines 51-53). -/
def health : JDoc :=
  [("status", .pstr "ok")]

/-- The database handle as seen by the `/test` route: its name attribute
when it has one, and the outcome of `list_collection_names()`, which
either returns the collection names or raises (carried as the error's
string form). -/
structure DBHandle where
  name : Option String
  listCollections : Except String (List String)

/-- The response dict built by `test_database`. -/
structure TestResponse where
  backend : String
  database : String
  database_url : Option String
  database_name : Option String
  connection_status : String
  collections : List String
deriving DecidableEq

/-- Embeds `test_database` (main.py lines 56-86) over an abstract
connection state: `conn` is the module-level `db` handle (`none` when it
is None), `hasDatabaseUrl` whether the DATABASE_URL environment variable
is set. Every failure of the collection listing is caught and rendered
into the `database` string field; the function always returns a response.
The outer catch-all except (lines 83-84) guards operations that cannot
fail in this model and is therefore not reachable here. -/
def test_database (conn : Option DBHandle) (hasDatabaseUrl : Bool) : TestResponse :=
  let r0 : TestResponse :=
    ⟨"✅ Running", "❌ Not Available", none, none, "Not Connected", []⟩
  match conn with
  | some dbh =>
      let r1 := { r0 with
        database := "✅ Available"
        database_url := some (if hasDatabaseUrl then "✅ Set" else "❌ Not Set")
        database_name := some (dbh.name.getD "✅ Connected")
        connection_status := "Connected" }
      match dbh.listCollections with
      | .ok cols =>
          { r1 with collections := cols.take 10, database := "✅ Connected & Working" }
      | .error e =>
          { r1 with database := "⚠️  Connected but Error: " ++ e.take 80 }
  | none => { r0 with database := "⚠️  Available but not initialized" }

/-- Embeds `list_clients` (main.py lines 102-105). The state is returned
unchanged to make explicit that the handler only reads. -/
def list_clients (st : DBState) (limit : Nat) : List JDoc × DBState :=
  ((get_documents st (_collection_name "Client") [] limit).map serialize_doc, st)

/-- Embeds `create_client` (main.py lines 108-115): validate the body
(FastAPI rejects with 422 before the handler runs on failure), insert,
re-fetch the inserted record by its new identifier, serialize; if the
re-fetch found nothing, return just the identifier. -/
def create_client (st : DBState) (raw : RawClient) : Except ApiError JDoc × DBState :=
  match validateClient raw with
  | .error e => (.error (.validationErr e), st)
  | .ok payload =>
      let r := create_document st (_collection_name "Client") (clientToDoc payload)
      match find_one_by_id (getColl r.2 (_collection_name "Client")) r.1 with
      | some doc => (.ok (serialize_doc doc), r.2)
      | none => (.ok [("_id", .pstr r.1)], r.2)

/-- Embeds `list_invoices` (main.py lines 120-132): the filter dict gains
a `status` key only when the parameter is truthy (present and non-empty),
likewise for `client_id`. -/
def list_invoices (st : DBState) (status client_id : Option String) (limit : Nat) : List JDoc × DBState :=
  let filt1 : List (String × MongoValue) :=
    match status with
    | some s => if s ≠ "" then [("status", .jsonVal (.pstr s))] else []
    | none => []
  let filt2 : List (String × MongoValue) :=
    match client_id with
    | some c => if c ≠ "" then [("client_id", .jsonVal (.pstr c))] else []
    | none => []
  ((get_documents st (_collection_name "Invoice") (filt1 ++ filt2) limit).map serialize_doc, st)

/-- The insert-and-refetch tail of `create_invoice` (main.py lines
143-148). -/
def insertInvoice (st : DBState) (p : Invoice) : Except ApiError JDoc × DBState :=
  let r := create_document st (_collection_name "Invoice") (invoiceToDoc p)
  match find_one_by_id (getColl r.2 (_collection_name "Invoice")) r.1 with
  | some doc => (.ok (serialize_doc doc), r.2)
  | none => (.ok [("_id", .pstr r.1)], r.2)

/-- Embeds `create_invoice` (main.py lines 135-148). The body has already
passed Invoice schema validation when the handler runs. When
`payload.client_id` is truthy (present and non-empty): if its length is
24 the handler builds an ObjectId from it (raising an unhandled
`InvalidId` on a non-hex string) and looks the client up, otherwise
`client` stays None; a None `client` raises HTTP 400 "Invalid client_id".
Then insert, re-fetch, serialize. -/
def create_invoice (st : DBState) (p : Invoice) : Except ApiError JDoc × DBState :=
  match p.client_id with
  | some cid =>
      if cid ≠ "" then
        if cid.length = 24 then
          match objectIdOfString cid with
          | none => (.error (.serverErr "bson.errors.InvalidId"), st)
          | some oid =>
              match find_one_by_id (getColl st (_collection_name "Client")) oid with
              | none => (.error (.httpErr 400 "Invalid client_id"), st)
              | some _ => insertInvoice st p
        else (.error (.httpErr 400 "Invalid client_id"), st)
      else insertInvoice st p
  | none => insertInvoice st p

/-! ## Helper lemmas -/

lemma genIdAux_length (k : Nat) : ∀ n, (genIdAux k n).length = k := by
  induction k with
  | zero => intro n; rfl
  | succ k ih => intro n; simp [genIdAux, ih]

lemma genId_length (n : Nat) : (genId n).length = 24 :=
  genIdAux_length 24 n

lemma genId_ne_empty (n : Nat) : genId n ≠ "" := by
  intro h
  have h2 := genId_length n
  rw [h] at h2
  exact absurd h2 (by decide)

attribute [irreducible] genId

/-! ## Theorems for the claims -/

/-- C5: `_serialize_doc` maps each field of a record, replacing an
ObjectId value by its string form, a datetime value by its ISO-8601
string form, and leaving every other value unchanged; it is a total
function defined on every record, with no failure mode. -/
theorem serialize_doc_spec (doc : Document) :
    serialize_doc doc = doc.map (fun kv => (kv.1, serializeVal kv.2)) ∧
    (∀ s, serializeVal (.objectId s) = .pstr s) ∧
    (∀ s, serializeVal (.datetime s) = .pstr s) ∧
    (∀ v, serializeVal (.jsonVal v) = v) := by
  refine ⟨?_, fun s => rfl, fun s => rfl, fun v => rfl⟩
  induction doc with
  | nil => rfl
  | cons kv rest ih => simp [serialize_doc, ih]

/-- C7 counterexample: the claim says GET /health serves the health body,
but no route is registered at path /health; the handler is mounted at
/api/health (main.py line 51), so a GET /health request is a 404. -/
theorem health_path_cex : ("GET", "/health") ∉ appRoutes := by
  decide

/-- C7 amended: the static body with status ok is served at path
/api/health, which is the registered route. -/
theorem health_route_ok :
    ("GET", "/api/health") ∈ appRoutes ∧ health = [("status", Prim.pstr "ok")] := by
  exact ⟨by decide, rfl⟩

/-- C8: GET /invoices is a pure read: it leaves the database state
unchanged, and a second call with the same status and client_id filters
and no intervening write returns the same list of serialized records. -/
theorem list_invoices_read_idempotent (st : DBState) (status client_id : Option String) (limit : Nat) :
    (list_invoices st status client_id limit).2 = st ∧
    (list_invoices (list_invoices st status client_id limit).2 status client_id limit).1
      = (list_invoices st status client_id limit).1 :=
  ⟨rfl, rfl⟩

/-- C9: a status or client_id query parameter supplied as the empty
string is falsy in the handler's truthiness test, so no exact-match
filter is added for it: the response is the same as when the parameter
is absent. -/
theorem list_invoices_empty_param_absent (st : DBState) (s c : Option String) (limit : Nat) :
    list_invoices st (some "") c limit = list_invoices st none c limit ∧
    list_invoices st s (some "") limit = list_invoices st s none limit := by
  constructor
  · simp [list_invoices]
  · simp [list_invoices]

/-- C6: for every state of the database handle — absent, present with a
working collection listing, or present with a failing one — the /test
route returns a response (the embedding is a total function into
TestResponse, never an error), reports at most 10 collection names, and
renders a listing failure as an informational string in the database
field. -/
theorem test_database_spec (conn : Option DBHandle) (hasUrl : Bool) :
    (test_database conn hasUrl).collections.length ≤ 10 ∧
    (∀ dbh e, conn = some dbh → dbh.listCollections = .error e →
      (test_database conn hasUrl).database = "⚠️  Connected but Error: " ++ e.take 80) := by
  constructor
  · cases conn with
    | none => simp [test_database]
    | some dbh =>
        cases h : dbh.listCollections with
        | ok cols => simp [test_database, h]
        | error e => simp [test_database, h]
  · intro dbh e hconn hlist
    subst hconn
    simp [test_database, hlist]

/-- C6 witness: a concrete handle whose collection listing raises. -/
theorem test_database_spec_witness :
    (test_database (some ⟨some "appdb", .error "boom"⟩) true).collections.length ≤ 10 ∧
    (test_database (some ⟨some "appdb", .error "boom"⟩) true).database
      = "⚠️  Connected but Error: " ++ "boom".take 80 := by
  have h := test_database_spec (some ⟨some "appdb", Except.error "boom"⟩) true
  exact ⟨h.1, h.2 ⟨some "appdb", Except.error "boom"⟩ "boom" rfl rfl⟩

lemma collection_name_client : _collection_name "Client" = "client" := by decide

lemma collection_name_invoice : _collection_name "Invoice" = "invoice" := by decide

lemma checkEmail_ok (o em : Option String) (h : checkEmail o = .ok em) : em = o := by
  cases o with
  | none =>
      simp only [checkEmail] at h
      injection h with h
      exact h.symm
  | some e =>
      simp only [checkEmail] at h
      split at h
      · injection h with h; exact h.symm
      · exact Except.noConfusion h

lemma validateClient_ok_fields (raw : RawClient) (c : Client) (h : validateClient raw = .ok c) :
    raw.name = some c.name ∧ c.email = raw.email ∧ c.phone = raw.phone ∧
    c.company = raw.company ∧ c.address = raw.address ∧ c.notes = raw.notes ∧
    (raw.status = none → c.status = .active) := by
  cases hn : raw.name with
  | none => simp [validateClient, hn] at h
  | some n =>
      simp only [validateClient, hn] at h
      by_cases h2 : n.length < 2
      · rw [if_pos h2] at h; exact Except.noConfusion h
      · rw [if_neg h2] at h
        by_cases h3 : n.length > 120
        · rw [if_pos h3] at h; exact Except.noConfusion h
        · rw [if_neg h3] at h
          cases he : checkEmail raw.email with
          | error e => rw [he] at h; exact Except.noConfusion h
          | ok em =>
              rw [he] at h
              cases hs : parseClientStatus raw.status with
              | error e => rw [hs] at h; exact Except.noConfusion h
              | ok stat =>
                  rw [hs] at h
                  injection h with h
                  subst h
                  refine ⟨rfl, checkEmail_ok raw.email em he, rfl, rfl, rfl, rfl, ?_⟩
                  intro hst
                  rw [hst] at hs
                  have hs2 : (Except.ok ClientStatus.active : Except String ClientStatus) = .ok stat := hs
                  injection hs2 with hs2
                  exact hs2.symm

/-- C3: a POST /clients body with the name field missing, or with a name
of fewer than 2 characters, fails Client schema validation before the
handler body runs: a validation error is returned, the state is
unchanged, and a subsequent GET /clients returns the same listing as
before the request. -/
theorem create_client_invalid_name_rejected (st : DBState) (raw : RawClient)
    (h : raw.name = none ∨ ∃ n, raw.name = some n ∧ n.length < 2) :
    (∃ e, create_client st raw = (.error (.validationErr e), st)) ∧
    ∀ limit, list_clients (create_client st raw).2 limit = list_clients st limit := by
  have hv : ∃ e, validateClient raw = .error e := by
    rcases h with h | ⟨n, hn, hlen⟩
    · exact ⟨"name: Field required", by simp [validateClient, h]⟩
    · exact ⟨"name: String should have at least 2 characters",
        by simp only [validateClient, hn]; rw [if_pos hlen]⟩
  rcases hv with ⟨e, he⟩
  refine ⟨⟨e, by simp [create_client, he]⟩, ?_⟩
  intro limit
  simp [create_client, he]

/-- C3 witness: the empty body (every field absent) is rejected and
leaves an empty store unchanged. -/
theorem create_client_invalid_name_rejected_witness :
    ((⟨none, none, none, none, none, none, none⟩ : RawClient).name = none ∨
      ∃ n, (⟨none, none, none, none, none, none, none⟩ : RawClient).name = some n ∧ n.length < 2) ∧
    (∃ e, create_client emptyDB ⟨none, none, none, none, none, none, none⟩
        = (.error (.validationErr e), emptyDB)) ∧
    ∀ limit, list_clients (create_client emptyDB ⟨none, none, none, none, none, none, none⟩).2 limit
        = list_clients emptyDB limit :=
  ⟨Or.inl rfl,
   create_client_invalid_name_rejected emptyDB ⟨none, none, none, none, none, none, none⟩ (Or.inl rfl)⟩

/-- C4: for a body that passes Client schema validation, POST /clients
inserts the record, re-fetches it by the newly assigned identifier and
returns it serialized: the response is the _id (a non-empty string) in
front of the serialized record fields, and those fields are the input
fields with defaults applied (status defaults to active when omitted). -/
theorem create_client_valid_ok (st : DBState) (raw : RawClient) (c : Client)
    (h : validateClient raw = .ok c) :
    create_client st raw =
      (.ok (("_id", Prim.pstr (genId st.counter)) :: serialize_doc (clientToDoc c)),
        { st with client := (genId st.counter, clientToDoc c) :: st.client,
                  counter := st.counter + 1 }) ∧
    genId st.counter ≠ "" ∧
    raw.name = some c.name ∧ c.email = raw.email ∧ c.phone = raw.phone ∧
    c.company = raw.company ∧ c.address = raw.address ∧ c.notes = raw.notes ∧
    (raw.status = none → c.status = .active) := by
  obtain ⟨f1, f2, f3, f4, f5, f6, f7⟩ := validateClient_ok_fields raw c h
  refine ⟨?_, genId_ne_empty st.counter, f1, f2, f3, f4, f5, f6, f7⟩
  simp [create_client, h, create_document, collection_name_client, getColl, putColl,
        find_one_by_id, withId, serialize_doc, serializeVal]

/-- C4 witness: the spec's own example body, name Acme Co with all other
fields omitted, against the empty store. -/
theorem create_client_valid_ok_witness :
    validateClient ⟨some "Acme Co", none, none, none, none, none, none⟩
      = .ok ⟨"Acme Co", none, none, none, none, none, .active⟩ ∧
    create_client emptyDB ⟨some "Acme Co", none, none, none, none, none, none⟩ =
      (.ok (("_id", Prim.pstr (genId emptyDB.counter)) ::
            serialize_doc (clientToDoc ⟨"Acme Co", none, none, none, none, none, .active⟩)),
       { emptyDB with
          client := (genId emptyDB.counter,
                     clientToDoc ⟨"Acme Co", none, none, none, none, none, .active⟩) :: emptyDB.client,
          counter := emptyDB.counter + 1 }) ∧
    genId emptyDB.counter ≠ "" := by
  have h := create_client_valid_ok emptyDB ⟨some "Acme Co", none, none, none, none, none, none⟩
    ⟨"Acme Co", none, none, none, none, none, .active⟩ rfl
  exact ⟨rfl, h.1, h.2.1⟩

/-- C1 counterexample: a schema-valid invoice body carrying the non-empty
client_id "abc" (length 3, not 24). The claim says the existence check is
skipped and the invoice is created with no error; the handler instead
leaves `client` as None, raises HTTP 400 "Invalid client_id", and
persists nothing. -/
theorem create_invoice_short_client_id_cex :
    validateInvoice ⟨none, some "abc", none, none, none, none, none, none, none⟩
      = .ok ⟨none, some "abc", none, none, [], .USD, .draft, none, none⟩ ∧
    create_invoice emptyDB ⟨none, some "abc", none, none, [], .USD, .draft, none, none⟩
      = (.error (.httpErr 400 "Invalid client_id"), emptyDB) :=
  ⟨rfl, rfl⟩

/-- C1 amended: for a schema-valid body carrying a non-empty client_id
whose length is not 24, the database lookup is indeed skipped, but the
reference is not treated as absent: `client` stays None and the request
fails with HTTP 400 "Invalid client_id", leaving the store unchanged. -/
theorem create_invoice_short_client_id_rejected (st : DBState) (raw : RawInvoice)
    (p : Invoice) (cid : String)
    (hv : validateInvoice raw = .ok p) (hc : p.client_id = some cid)
    (hne : cid ≠ "") (hlen : cid.length ≠ 24) :
    create_invoice st p = (.error (.httpErr 400 "Invalid client_id"), st) := by
  simp [create_invoice, hc, hne, hlen]

/-- C1 amended witness: client_id "abcdef" against the empty store. -/
theorem create_invoice_short_client_id_rejected_witness :
    validateInvoice ⟨none, some "abcdef", none, none, none, none, none, none, none⟩
      = .ok ⟨none, some "abcdef", none, none, [], .USD, .draft, none, none⟩ ∧
    ("abcdef" ≠ "" ∧ "abcdef".length ≠ 24) ∧
    create_invoice emptyDB ⟨none, some "abcdef", none, none, [], .USD, .draft, none, none⟩
      = (.error (.httpErr 400 "Invalid client_id"), emptyDB) := by
  refine ⟨rfl, ⟨by decide, by decide⟩, ?_⟩
  exact create_invoice_short_client_id_rejected emptyDB
    ⟨none, some "abcdef", none, none, none, none, none, none, none⟩
    ⟨none, some "abcdef", none, none, [], .USD, .draft, none, none⟩
    "abcdef" rfl rfl (by decide) (by decide)

/-- C2 counterexample: a schema-valid invoice body whose client_id is 24
characters but not hexadecimal ("zzz..."), matching no stored client. The
claim says every such request fails with a 400 "Invalid client_id"; the
handler instead crashes inside the bson ObjectId constructor, an
unhandled InvalidId surfacing as a server error, not the 400. Nothing is
persisted in either case. -/
theorem create_invoice_nonhex_client_id_cex :
    validateInvoice ⟨none, some "zzzzzzzzzzzzzzzzzzzzzzzz", none, none, none, none, none, none, none⟩
      = .ok ⟨none, some "zzzzzzzzzzzzzzzzzzzzzzzz", none, none, [], .USD, .draft, none, none⟩ ∧
    "zzzzzzzzzzzzzzzzzzzzzzzz".length = 24 ∧
    emptyDB.client = [] ∧
    create_invoice emptyDB ⟨none, some "zzzzzzzzzzzzzzzzzzzzzzzz", none, none, [], .USD, .draft, none, none⟩
      = (.error (.serverErr "bson.errors.InvalidId"), emptyDB) ∧
    (create_invoice emptyDB ⟨none, some "zzzzzzzzzzzzzzzzzzzzzzzz", none, none, [], .USD, .draft, none, none⟩).1
      ≠ .error (.httpErr 400 "Invalid client_id") := by
  refine ⟨rfl, by decide, rfl, rfl, ?_⟩
  intro hcontra
  have h2 : ApiError.serverErr "bson.errors.InvalidId"
      = ApiError.httpErr 400 "Invalid client_id" := by injection hcontra
  exact ApiError.noConfusion h2

/-- C2 amended: for a schema-valid body whose client_id is a 24-character
hexadecimal string resolving to no stored client, the request fails with
HTTP 400 "Invalid client_id" and the store is unchanged; a 24-character
non-hexadecimal client_id instead raises an unhandled error in the
ObjectId constructor (also persisting nothing). -/
theorem create_invoice_unknown_client_id_rejected (st : DBState) (raw : RawInvoice)
    (p : Invoice) (cid : String)
    (hv : validateInvoice raw = .ok p) (hc : p.client_id = some cid)
    (hlen : cid.length = 24) (hhex : cid.data.all isHexChar = true)
    (hmiss : find_one_by_id (getColl st (_collection_name "Client")) (strLower cid) = none) :
    create_invoice st p = (.error (.httpErr 400 "Invalid client_id"), st) := by
  have hne : cid ≠ "" := by
    intro h
    rw [h] at hlen
    exact absurd hlen (by decide)
  have hoid : objectIdOfString cid = some (strLower cid) := by
    simp [objectIdOfString, hlen, hhex]
  simp [create_invoice, hc, hne, hlen, hoid, hmiss]

/-- C2 amended witness: the hex client_id made of 24 letters a, against
the empty store. -/
theorem create_invoice_unknown_client_id_rejected_witness :
    validateInvoice ⟨none, some "aaaaaaaaaaaaaaaaaaaaaaaa", none, none, none, none, none, none, none⟩
      = .ok ⟨none, some "aaaaaaaaaaaaaaaaaaaaaaaa", none, none, [], .USD, .draft, none, none⟩ ∧
    "aaaaaaaaaaaaaaaaaaaaaaaa".length = 24 ∧
    "aaaaaaaaaaaaaaaaaaaaaaaa".data.all isHexChar = true ∧
    find_one_by_id (getColl emptyDB (_collection_name "Client")) (strLower "aaaaaaaaaaaaaaaaaaaaaaaa") = none ∧
    create_invoice emptyDB ⟨none, some "aaaaaaaaaaaaaaaaaaaaaaaa", none, none, [], .USD, .draft, none, none⟩
      = (.error (.httpErr 400 "Invalid client_id"), emptyDB) := by
  refine ⟨rfl, by decide, by decide, by decide, ?_⟩
  exact create_invoice_unknown_client_id_rejected emptyDB
    ⟨none, some "aaaaaaaaaaaaaaaaaaaaaaaa", none, none, none, none, none, none, none⟩
    ⟨none, some "aaaaaaaaaaaaaaaaaaaaaaaa", none, none, [], .USD, .draft, none, none⟩
    "aaaaaaaaaaaaaaaaaaaaaaaa" rfl rfl (by decide) (by decide) (by decide)

lemma getColl_invoice (st : DBState) : getColl st "invoice" = st.invoice := rfl

lemma find_one_prepended (id : String) (doc : Document) (coll : List (String × Document)) :
    find_one_by_id ((id, doc) :: coll) id = some (("_id", MongoValue.objectId id) :: doc) := by
  simp [find_one_by_id, withId, List.find?]

lemma insertInvoice_eq (st : DBState) (p : Invoice) :
    insertInvoice st p =
      (.ok (("_id", Prim.pstr (genId st.counter)) :: serialize_doc (invoiceToDoc p)),
       { st with invoice := (genId st.counter, invoiceToDoc p) :: st.invoice,
                 counter := st.counter + 1 }) := by
  have h1 : insertInvoice st p
      = (match find_one_by_id ((genId st.counter, invoiceToDoc p) :: st.invoice)
            (genId st.counter) with
         | some doc => (Except.ok (serialize_doc doc),
             { st with invoice := (genId st.counter, invoiceToDoc p) :: st.invoice,
                       counter := st.counter + 1 })
         | none => (Except.ok [("_id", Prim.pstr (genId st.counter))],
             { st with invoice := (genId st.counter, invoiceToDoc p) :: st.invoice,
                       counter := st.counter + 1 })) := rfl
  rw [h1, find_one_prepended]
  rfl

/-- C10: for a schema-valid body whose client_id is the empty string, the
truthiness test on `payload.client_id` is false, so the client-existence
check is skipped entirely: the invoice is inserted and returned, and the
persisted record carries the empty-string client_id. -/
theorem create_invoice_empty_client_id_ok (st : DBState) (raw : RawInvoice) (p : Invoice)
    (hv : validateInvoice raw = .ok p) (hc : p.client_id = some "") :
    create_invoice st p =
      (.ok (("_id", Prim.pstr (genId st.counter)) :: serialize_doc (invoiceToDoc p)),
        { st with invoice := (genId st.counter, invoiceToDoc p) :: st.invoice,
                  counter := st.counter + 1 }) ∧
    lookupField (invoiceToDoc p) "client_id" = some (.jsonVal (.pstr "")) := by
  have hci : create_invoice st p = insertInvoice st p := by
    simp only [create_invoice, hc]
    rw [if_neg (by decide : ¬(("" : String) ≠ ""))]
  constructor
  · rw [hci]
    exact insertInvoice_eq st p
  · have h2 : lookupField (invoiceToDoc p) "client_id"
        = some (.jsonVal (optStr p.client_id)) := rfl
    rw [h2, hc]
    rfl

/-- C10 witness: an otherwise-empty valid body with client_id set to the
empty string, against the empty store. -/
theorem create_invoice_empty_client_id_ok_witness :
    validateInvoice ⟨none, some "", none, none, none, none, none, none, none⟩
      = .ok ⟨none, some "", none, none, [], .USD, .draft, none, none⟩ ∧
    create_invoice emptyDB ⟨none, some "", none, none, [], .USD, .draft, none, none⟩
      = (.ok (("_id", Prim.pstr (genId emptyDB.counter)) ::
              serialize_doc (invoiceToDoc ⟨none, some "", none, none, [], .USD, .draft, none, none⟩)),
         { emptyDB with
            invoice := (genId emptyDB.counter,
                        invoiceToDoc ⟨none, some "", none, none, [], .USD, .draft, none, none⟩) :: emptyDB.invoice,
            counter := emptyDB.counter + 1 }) ∧
    lookupField (invoiceToDoc ⟨none, some "", none, none, [], .USD, .draft, none, none⟩) "client_id"
      = some (.jsonVal (.pstr "")) := by
  have h := create_invoice_empty_client_id_ok emptyDB
    ⟨none, some "", none, none, none, none, none, none, none⟩
    ⟨none, some "", none, none, [], .USD, .draft, none, none⟩ rfl rfl
  exact ⟨rfl, h.1, h.2⟩
